import Mathlib

/-!
Verification of AutoGLM-GUI's dual-model stream consumer, chat panel
control flow, history persistence, and (spec-modelled) anomaly monitor
and batched-run replan budget.

Sources embedded:
* `frontend/src/components/useDualModelState.ts` — `DualModelState`,
  `handleEvent`, the initial state.
* `frontend/src/components/DevicePanel.tsx` — `handleSend` guard,
  `handleAbortChat`, the `done`/`error`/`aborted` stream callbacks.
* `frontend/src/utils/history.ts` — `saveHistoryItem` (normal and
  quota-exceeded fallback paths).
* The AnomalyMonitor (`observe`) and the Batched (TURBO) replan budget
  are modelled from the spec, since `dual_agent.py` is not among the
  provided sources (only the development log describing it is).
-/

namespace AutoGLM

/-- One event on the dual-model SSE stream, as consumed by
`handleEvent` in `useDualModelState.ts`.  The TypeScript events form a
discriminated union on the string field `type`; payload fields not
relevant to a given kind keep their defaults.  The `task_plan` payload
is nested under `plan` in TS (`event.plan.steps`,
`event.plan.estimated_actions`); here those two fields are flattened to
`planSteps` / `planEstimatedActions`.  `decisionAction`/`decisionTarget`
flatten `event.decision.action`/`event.decision.target`, and
`actionAction`/`actionTarget` flatten `event.action.action`/
`event.action.target` of `action_start`. -/
structure StreamEvent where
  type : String
  stage : String := ""
  chunk : String := ""
  decisionAction : String := ""
  decisionTarget : String := ""
  planSteps : List String := []
  planEstimatedActions : Nat := 0
  description : String := ""
  actionAction : String := ""
  actionTarget : String := ""
  action_type : String := ""
  target : String := ""
  success : Bool := true
  step : Nat := 0
  message : String := ""
deriving DecidableEq

/-- The state managed by `useDualModelState` (`DualModelState` in
`useDualModelState.ts`).  The `decisions`, `recognitions` and `actions`
history arrays store the events themselves, as in the source. -/
structure DualModelState where
  decisionActive : Bool
  decisionStage : String
  decisionThinking : String
  decisionResult : String
  taskPlan : List String
  visionActive : Bool
  visionStage : String
  visionDescription : String
  visionAction : String
  currentStep : Nat
  totalSteps : Nat
  decisions : List StreamEvent
  recognitions : List StreamEvent
  actions : List StreamEvent
deriving DecidableEq

/-- The initial state passed to `React.useState` in `useDualModelState`. -/
def initState : DualModelState where
  decisionActive := false
  decisionStage := "idle"
  decisionThinking := ""
  decisionResult := ""
  taskPlan := []
  visionActive := false
  visionStage := "idle"
  visionDescription := ""
  visionAction := ""
  currentStep := 0
  totalSteps := 0
  decisions := []
  recognitions := []
  actions := []

/-- The twelve `case` labels of the switch in `handleEvent`
(`useDualModelState.ts` lines 54–143), plus `unknown` for the `default`
branch. -/
inductive EventKind
  | decision_start | decision_thinking | decision_result | task_plan
  | vision_start | vision_recognition | action_start | action_result
  | step_complete | task_complete | error | aborted | unknown
deriving DecidableEq

/-- The discriminator of the switch in `handleEvent`: which `case` label
of `useDualModelState.ts` a `type` string selects, in the source's case
order; any other string falls to the `default` branch (`unknown`). -/
def kindOf (t : String) : EventKind :=
  if t = "decision_start" then .decision_start
  else if t = "decision_thinking" then .decision_thinking
  else if t = "decision_result" then .decision_result
  else if t = "task_plan" then .task_plan
  else if t = "vision_start" then .vision_start
  else if t = "vision_recognition" then .vision_recognition
  else if t = "action_start" then .action_start
  else if t = "action_result" then .action_result
  else if t = "step_complete" then .step_complete
  else if t = "task_complete" then .task_complete
  else if t = "error" then .error
  else if t = "aborted" then .aborted
  else .unknown

/-- The twelve handled `type` strings, in source order. -/
def handledTypes : List String :=
  ["decision_start", "decision_thinking", "decision_result", "task_plan",
   "vision_start", "vision_recognition", "action_start", "action_result",
   "step_complete", "task_complete", "error", "aborted"]

/-- The `handleEvent` reducer of `useDualModelState.ts` (lines 52–146):
a switch on `event.type` producing the next state from `prev`; the
switch is factored through the discriminator `kindOf`, and the
`default` branch returns `prev` unchanged.  The branch bodies are the
source's object-spread updates, field for field. -/
def handleEvent (event : StreamEvent) (prev : DualModelState) : DualModelState :=
  match kindOf event.type with
  | .decision_start =>
    { prev with decisionActive := true, decisionStage := event.stage,
                visionActive := false }
  | .decision_thinking =>
    { prev with decisionThinking := prev.decisionThinking ++ event.chunk }
  | .decision_result =>
    { prev with decisionActive := false, decisionStage := "idle",
                decisionThinking := "",
                decisionResult := event.decisionAction ++ ": " ++ event.decisionTarget,
                decisions := prev.decisions ++ [event] }
  | .task_plan =>
    { prev with taskPlan := event.planSteps,
                totalSteps := event.planEstimatedActions }
  | .vision_start =>
    { prev with visionActive := true, visionStage := event.stage,
                decisionActive := false }
  | .vision_recognition =>
    { prev with visionDescription := event.description,
                recognitions := prev.recognitions ++ [event] }
  | .action_start =>
    { prev with visionStage := "executing",
                visionAction := event.actionAction ++ ": " ++ event.actionTarget }
  | .action_result =>
    { prev with visionActive := false, visionStage := "idle",
                visionAction := event.action_type ++ ": " ++ event.target
                  ++ " - " ++ (if event.success then "Success" else "Failed"),
                actions := prev.actions ++ [event] }
  | .step_complete =>
    { prev with currentStep := event.step }
  | .task_complete =>
    { prev with decisionActive := false, visionActive := false,
                decisionStage := "idle", visionStage := "idle" }
  | .error =>
    { prev with decisionActive := false, visionActive := false,
                decisionStage := "idle", visionStage := "idle" }
  | .aborted =>
    { prev with decisionActive := false, visionActive := false,
                decisionStage := "idle", visionStage := "idle" }
  | .unknown => prev

/-- Folding a list of stream events through the `handleEvent` reducer. -/
def processEvents (events : List StreamEvent) (s : DualModelState) : DualModelState :=
  events.foldl (fun acc e => handleEvent e acc) s

/-- `HistoryItem` from `frontend/src/types/history.ts`.  `Date` values
are modelled as epoch milliseconds (`Nat`), `duration` as their signed
difference, and the untyped per-step action records
(`Record<string, unknown>[]`) as opaque strings. -/
structure HistoryItem where
  id : String
  deviceId : String
  deviceName : String
  taskText : String
  success : Bool
  steps : Nat
  startTime : Nat
  endTime : Nat
  duration : Int
  thinking : List String
  actions : List String
  finalMessage : String
  errorMessage : Option String
deriving DecidableEq

/-- `MAX_HISTORY_ITEMS` in `history.ts`. -/
def MAX_HISTORY_ITEMS : Nat := 100

/-- `FALLBACK_HISTORY_ITEMS` in `history.ts`. -/
def FALLBACK_HISTORY_ITEMS : Nat := 20

/-- The normal path of `saveHistoryItem` (`history.ts` lines 50–62):
read the stored list for the device, `unshift` the new item to the
front, and keep at most `MAX_HISTORY_ITEMS` entries.  `stored` is the
parsed list previously in `localStorage` under `history-<deviceId>`;
the result is the list written back. -/
def saveHistoryItemNormal (stored : List HistoryItem) (item : HistoryItem) :
    List HistoryItem :=
  (item :: stored).take MAX_HISTORY_ITEMS

/-- The `QuotaExceededError` fallback path of `saveHistoryItem`
(`history.ts` lines 64–81): re-read the stored list (the failed write
was not persisted), keep only the `FALLBACK_HISTORY_ITEMS` most recent
entries, then `unshift` the new item. -/
def saveHistoryItemFallback (stored : List HistoryItem) (item : HistoryItem) :
    List HistoryItem :=
  item :: stored.take FALLBACK_HISTORY_ITEMS

/-- A chat message: the `Message` interface of `DevicePanel.tsx`
restricted to the fields the send/abort/terminal-callback logic reads or
writes (`role`, `content`, `isStreaming`, `success`, `steps`). -/
structure Msg where
  role : String
  content : String
  isStreaming : Bool
  success : Bool
  steps : Nat := 0
deriving DecidableEq

/-- The `DevicePanel` component state relevant to the task-run control
flow: the `input` text, the `loading`/`aborting` flags, the
`chatStreamRef` handle (`streamOpen` — true when `chatStreamRef.current`
is non-null), the `error` banner, and the message list.  `sends` counts
`sendMessageStream` calls, `backendAborts` counts `abortChat` calls, and
`historySaves` counts `saveHistoryItem` calls — the externally
observable effects of the handlers. -/
structure ChatUIState where
  input : String
  loading : Bool
  aborting : Bool
  streamOpen : Bool
  error : Option String
  messages : List Msg
  sends : Nat
  backendAborts : Nat
  historySaves : Nat
deriving DecidableEq

/-- `handleSend` of `DevicePanel.tsx` (lines 272–311, 334, 474), as far
as it affects the modelled state: the guard
`if (!inputValue || loading) return;` rejects the send; otherwise the
user message and a streaming assistant placeholder are appended, the
input is cleared, `loading` is set, the error banner cleared, and one
`sendMessageStream` call is issued (the stream handle is stored). -/
def handleSend (s : ChatUIState) : ChatUIState :=
  if s.input.trim = "" ∨ s.loading = true then s
  else
    { s with
      messages := s.messages ++
        [{ role := "user", content := s.input.trim,
           isStreaming := false, success := true },
         { role := "assistant", content := "",
           isStreaming := true, success := true }],
      input := "",
      loading := true,
      error := none,
      streamOpen := true,
      sends := s.sends + 1 }

/-- The message update performed by `handleAbortChat` on the last
message when it is a streaming assistant message (`DevicePanel.tsx`
lines 515–535): keep the content or fall back to `t.chat.aborted`, stop
streaming, mark unsuccessful. -/
def markAborted (fallback : String) (m : Msg) : Msg :=
  { m with content := if m.content = "" then fallback else m.content,
           isStreaming := false, success := false }

/-- `handleAbortChat`'s `setMessages` update: the last message is
rewritten only when it is an assistant message still streaming. -/
def markLastStreamingAborted (fallback : String) (ms : List Msg) : List Msg :=
  match ms.getLast? with
  | some m =>
      if m.role = "assistant" ∧ m.isStreaming = true then
        ms.dropLast ++ [markAborted fallback m]
      else ms
  | none => ms

/-- `handleAbortChat` of `DevicePanel.tsx` (lines 502–545): the guard
`if (!chatStreamRef.current) return;` makes a second call a no-op; a
first call closes the SSE stream (clearing the handle), marks the
trailing streaming message aborted, issues one backend `abortChat`
call, and resets `loading` (and, via the `finally` block, `aborting`). -/
def handleAbortChat (fallback : String) (s : ChatUIState) : ChatUIState :=
  if s.streamOpen = true then
    { s with streamOpen := false,
             messages := markLastStreamingAborted fallback s.messages,
             loading := false,
             aborting := false,
             backendAborts := s.backendAborts + 1 }
  else s

/-- Apply `f` to the last element of a list (the callbacks of
`handleSend` update the message whose id is `agentMessageId`, which is
the last message appended by `handleSend`). -/
def setLastMsg (f : Msg → Msg) : List Msg → List Msg
  | [] => []
  | [m] => [f m]
  | m :: rest => m :: setLastMsg f rest

/-- The `done` callback of `sendMessageStream` in `handleSend`
(`DevicePanel.tsx` lines 377–411): finalize the agent message with the
outcome, stop loading, drop the stream handle, and save the run to
history. -/
def onDone (message : String) (success : Bool) (steps : Nat)
    (s : ChatUIState) : ChatUIState :=
  { s with
    messages := setLastMsg
      (fun m => { m with content := message, success := success,
                         isStreaming := false, steps := steps }) s.messages,
    loading := false,
    streamOpen := false,
    historySaves := s.historySaves + 1 }

/-- The `error` callback (`DevicePanel.tsx` lines 412–446): finalize the
agent message as failed, stop loading, raise the error banner, drop the
stream handle, and save the failed run to history. -/
def onError (message : String) (s : ChatUIState) : ChatUIState :=
  { s with
    messages := setLastMsg
      (fun m => { m with content := "Error: " ++ message, success := false,
                         isStreaming := false }) s.messages,
    loading := false,
    streamOpen := false,
    error := some message,
    historySaves := s.historySaves + 1 }

/-- The `aborted` callback (`DevicePanel.tsx` lines 447–471): finalize
the agent message with the abort message (or a default), stop loading,
and drop the stream handle (no history save). -/
def onAborted (message : String) (s : ChatUIState) : ChatUIState :=
  { s with
    messages := setLastMsg
      (fun m => { m with
        content := if message = "" then "Chat aborted by user" else message,
        success := false, isStreaming := false }) s.messages,
    loading := false,
    streamOpen := false }

/-- A terminal outcome of one orchestrator run. -/
inductive RunOutcome
  | success
  | failure (msg : String)
  | cancelled (msg : String)
deriving DecidableEq

/-- Modelled from the spec: the orchestrator (`dual_agent.py`, not among
the provided sources) ends every terminating run by emitting exactly one
terminal event on the event channel — `task_complete` on success,
`error (message)` on failure, `aborted (message)` on cancellation
(§4.4, §7: "every terminal failure has a corresponding terminal
event"). -/
def terminalEventOf : RunOutcome → StreamEvent
  | .success => { type := "task_complete" }
  | .failure m => { type := "error", message := m }
  | .cancelled m => { type := "aborted", message := m }

/-- Modelled from the spec: `AnomalyConfig` holds the three tunable
thresholds of §4.1 (same-screen N, consecutive-failure M, repeated-
action K). -/
structure AnomalyConfig where
  sameScreenThreshold : Nat
  failureThreshold : Nat
  repeatThreshold : Nat
deriving DecidableEq

/-- The stated defaults: N = 3, M = 2, K = 3. -/
def defaultAnomalyConfig : AnomalyConfig :=
  { sameScreenThreshold := 3, failureThreshold := 2, repeatThreshold := 3 }

/-- The `AnomalyState` dataclass (development log, `dual_agent.py`):
consecutive failure count, consecutive identical-screen count, last
screen fingerprint, last action signature, repeated-action count. -/
structure AnomalyState where
  consecutive_failures : Nat
  consecutive_same_screen : Nat
  last_screenshot_hash : String
  last_action : String
  repeated_actions : Nat
deriving DecidableEq

/-- The all-zero initial `AnomalyState` (the dataclass defaults). -/
def initAnomalyState : AnomalyState :=
  { consecutive_failures := 0, consecutive_same_screen := 0,
    last_screenshot_hash := "", last_action := "", repeated_actions := 0 }

/-- Which of §4.1's three rules fired. -/
inductive AnomalyRule
  | screenNotChanging
  | consecutiveFailures
  | actionNoEffect
deriving DecidableEq

/-- Modelled from the spec: the `AnomalyContext` returned by `observe`,
carrying which rule fired, the triggering count, and the last action. -/
structure AnomalyContext where
  rule : AnomalyRule
  count : Nat
  lastAction : String
deriving DecidableEq

/-- Modelled from the spec: the counter update of one observation
(`dual_agent.py` is not among the provided sources).  Counters are
streak lengths including the current observation: an unchanged
fingerprint extends the same-screen streak, otherwise the streak
restarts at 1; a failure extends the failure streak, a success resets it
to 0; the same action signature with no intervening fingerprint change
extends the repeated-action streak, otherwise it restarts at 1. -/
def nextAnomalyState (st : AnomalyState) (fp sig : String) (ok : Bool) :
    AnomalyState :=
  { consecutive_failures := if ok then 0 else st.consecutive_failures + 1,
    consecutive_same_screen :=
      if fp = st.last_screenshot_hash then st.consecutive_same_screen + 1 else 1,
    last_screenshot_hash := fp,
    last_action := sig,
    repeated_actions :=
      if sig = st.last_action ∧ fp = st.last_screenshot_hash then
        st.repeated_actions + 1
      else 1 }

/-- Modelled from the spec: rule dispatch over the updated counters, in
§4.1's fixed order — same-screen, then consecutive failures, then
repeated action — first match wins; below every threshold no anomaly is
returned. -/
def anomalyOf (cfg : AnomalyConfig) (st : AnomalyState) (sig : String) :
    Option AnomalyContext :=
  if cfg.sameScreenThreshold ≤ st.consecutive_same_screen then
    some { rule := .screenNotChanging, count := st.consecutive_same_screen,
           lastAction := sig }
  else if cfg.failureThreshold ≤ st.consecutive_failures then
    some { rule := .consecutiveFailures, count := st.consecutive_failures,
           lastAction := sig }
  else if cfg.repeatThreshold ≤ st.repeated_actions then
    some { rule := .actionNoEffect, count := st.repeated_actions,
           lastAction := sig }
  else none

/-- Modelled from the spec:
`observe(screenFingerprint, actionSignature, outcomeSuccess)` — a pure
function of the prior state and the new observation, returning the
updated state and the context of the first rule (in priority order)
whose threshold the updated counters meet, if any. -/
def observe (cfg : AnomalyConfig) (st : AnomalyState) (fp sig : String)
    (ok : Bool) : AnomalyState × Option AnomalyContext :=
  let st' := nextAnomalyState st fp sig ok
  (st', anomalyOf cfg st' sig)

/-- Status of one Batched (TURBO) run. -/
inductive RunStatus
  | running
  | complete
  | recoveryExhausted
deriving DecidableEq

/-- Modelled from the spec: the Batched-run bookkeeping — steps left in
the current ActionSequence, the remaining ReplanBudget, the re-plans
already used, and whether the run is still going, finished, or was
terminated with the "recovery exhausted" error. -/
structure BatchedState where
  remaining : Nat
  replanBudget : Nat
  replansUsed : Nat
  status : RunStatus
deriving DecidableEq

/-- What one iteration of the Batched loop observes: either the step
executed with no anomaly, or the AnomalyMonitor returned a context (in
which case a re-plan, if allowed, would install a sequence of
`replanLen` remaining steps). -/
inductive BatchedSignal
  | ok
  | anomaly (replanLen : Nat)
deriving DecidableEq

/-- The fixed maximum number of re-plans (3, development log: "最多重新
规划 3 次"). -/
def maxReplans : Nat := 3

/-- Modelled from the spec (§4.4 Batched strategy, `_run_turbo` not
among the provided sources): on a normal step one remaining step is
consumed (the run completes when none remain); on an anomaly, if the
ReplanBudget is positive it is decremented, the re-plan counter is
incremented and the replacement sequence installed, and if the budget is
exhausted the run terminates with the "recovery exhausted" error.
Terminal states absorb further signals. -/
def batchedStep (s : BatchedState) (sig : BatchedSignal) : BatchedState :=
  if s.status = .running then
    match sig with
    | .ok =>
        let r := s.remaining - 1
        { s with remaining := r,
                 status := if r = 0 then .complete else .running }
    | .anomaly replanLen =>
        if 0 < s.replanBudget then
          { s with replanBudget := s.replanBudget - 1,
                   replansUsed := s.replansUsed + 1,
                   remaining := replanLen }
        else { s with status := .recoveryExhausted }
  else s

/-- A Batched run starts with the planned sequence length, the full
ReplanBudget, and no re-plans used. -/
def initBatched (n : Nat) : BatchedState :=
  { remaining := n, replanBudget := maxReplans, replansUsed := 0,
    status := .running }

/-- Run the Batched loop over a list of observed signals. -/
def runBatched (n : Nat) (sigs : List BatchedSignal) : BatchedState :=
  sigs.foldl batchedStep (initBatched n)

theorem kindOf_unknown_of_not_mem (t : String) (h : t ∉ handledTypes) :
    kindOf t = .unknown := by
  simp only [handledTypes, List.mem_cons, List.not_mem_nil, or_false, not_or] at h
  obtain ⟨h1, h2, h3, h4, h5, h6, h7, h8, h9, h10, h11, h12⟩ := h
  simp [kindOf, h1, h2, h3, h4, h5, h6, h7, h8, h9, h10, h11, h12]

theorem handleEvent_unknown (e : StreamEvent) (s : DualModelState)
    (h : kindOf e.type = .unknown) : handleEvent e s = s := by
  unfold handleEvent
  rw [h]

theorem handleEvent_unhandled (e : StreamEvent) (s : DualModelState)
    (h : e.type ∉ handledTypes) : handleEvent e s = s :=
  handleEvent_unknown e s (kindOf_unknown_of_not_mem e.type h)

theorem handleEvent_excl (e : StreamEvent) (s : DualModelState)
    (h : (s.decisionActive && s.visionActive) = false) :
    ((handleEvent e s).decisionActive && (handleEvent e s).visionActive) = false := by
  unfold handleEvent
  cases hk : kindOf e.type <;>
    first | rfl | exact h | exact Bool.and_false _

theorem kindOf_ne_step_complete (t : String) (h : t ≠ "step_complete") :
    kindOf t ≠ .step_complete := by
  by_cases hm : t ∈ handledTypes
  · fin_cases hm <;> first | decide | exact absurd rfl h
  · rw [kindOf_unknown_of_not_mem t hm]; decide

theorem kindOf_type_step_complete (e : StreamEvent)
    (h : e.type = "step_complete") : kindOf e.type = .step_complete := by
  rw [h]; decide

theorem handleEvent_step_complete (e : StreamEvent) (s : DualModelState)
    (h : e.type = "step_complete") :
    handleEvent e s = { s with currentStep := e.step } := by
  unfold handleEvent
  rw [kindOf_type_step_complete e h]

theorem kindOf_type_task_plan (e : StreamEvent)
    (h : e.type = "task_plan") : kindOf e.type = .task_plan := by
  rw [h]; decide

theorem handleEvent_task_plan (e : StreamEvent) (s : DualModelState)
    (h : e.type = "task_plan") :
    handleEvent e s = { s with taskPlan := e.planSteps,
                               totalSteps := e.planEstimatedActions } := by
  unfold handleEvent
  rw [kindOf_type_task_plan e h]

/-- C1 (counterexample): the consumer's event handler does not recognize
an event whose kind is the literal string `plan`: a `plan` event carrying
a plan payload falls through to the default branch and leaves the state
unchanged (in particular `taskPlan` stays empty), so the handled kind for
the plan event is not `plan`. -/
theorem c1_plan_event_not_recognized :
    handleEvent { type := "plan", planSteps := ["open app"], planEstimatedActions := 4 }
        initState = initState
    ∧ "plan" ∉ handledTypes := by
  constructor
  · decide
  · decide

/-- C1 (amended): the consumer's event handler recognizes exactly twelve
event kinds, but the plan event's kind is `task_plan` (its payload nested
under `plan`, with fields `steps` and `estimated_actions`), not `plan`;
the other eleven kinds are as the spec lists them.  Every event whose
kind is outside the twelve leaves the state unchanged, a `task_plan`
event installs the plan steps and estimated action count, and each of
the twelve kinds is genuinely recognized (there is an event of that kind
that changes some state). -/
theorem c1_event_taxonomy_amended :
    ("task_plan" ∈ handledTypes ∧ "plan" ∉ handledTypes ∧ handledTypes.length = 12)
    ∧ (∀ (e : StreamEvent) (s : DualModelState),
        e.type ∉ handledTypes → handleEvent e s = s)
    ∧ (∀ (e : StreamEvent) (s : DualModelState), e.type = "task_plan" →
        (handleEvent e s).taskPlan = e.planSteps
          ∧ (handleEvent e s).totalSteps = e.planEstimatedActions)
    ∧ (∀ t ∈ handledTypes, ∃ (e : StreamEvent) (s : DualModelState),
        e.type = t ∧ handleEvent e s ≠ s) := by
  refine ⟨by decide, fun e s h => handleEvent_unhandled e s h, ?_, ?_⟩
  · intro e s h
    rw [handleEvent_task_plan e s h]
    exact ⟨rfl, rfl⟩
  · intro t ht
    fin_cases ht
    · exact ⟨{ type := "decision_start" }, initState, rfl, by decide⟩
    · exact ⟨{ type := "decision_thinking", chunk := "x" }, initState, rfl, by decide⟩
    · exact ⟨{ type := "decision_result", decisionAction := "tap" }, initState, rfl, by decide⟩
    · exact ⟨{ type := "task_plan", planSteps := ["a"] }, initState, rfl, by decide⟩
    · exact ⟨{ type := "vision_start" }, initState, rfl, by decide⟩
    · exact ⟨{ type := "vision_recognition", description := "d" }, initState, rfl, by decide⟩
    · exact ⟨{ type := "action_start" }, initState, rfl, by decide⟩
    · exact ⟨{ type := "action_result" }, initState, rfl, by decide⟩
    · exact ⟨{ type := "step_complete", step := 1 }, initState, rfl, by decide⟩
    · exact ⟨{ type := "task_complete" },
        { initState with decisionActive := true }, rfl, by decide⟩
    · exact ⟨{ type := "error" },
        { initState with decisionActive := true }, rfl, by decide⟩
    · exact ⟨{ type := "aborted" },
        { initState with decisionActive := true }, rfl, by decide⟩

/-- C1 (witness): an event of an unknown kind leaves the state unchanged,
and a `task_plan` event installs its steps, at concrete inputs. -/
theorem c1_event_taxonomy_amended_witness :
    handleEvent { type := "mystery" } initState = initState
    ∧ (handleEvent { type := "task_plan", planSteps := ["open"], planEstimatedActions := 4 }
        initState).taskPlan = ["open"] :=
  ⟨c1_event_taxonomy_amended.2.1 _ _ (by decide),
   (c1_event_taxonomy_amended.2.2.1 _ _ rfl).1⟩

/-- C4 (counterexample): the stream consumer copies the `step` field of a
`step_complete` event into `currentStep` verbatim, so the claimed
invariant fails on adversarial event sequences: from a state with
`currentStep = 5`, a `step_complete` event with `step = 0` decreases
`currentStep`, and from a state with `totalSteps = 3`, a `step_complete`
event with `step = 9` makes `currentStep` exceed `totalSteps`. -/
theorem c4_counterexample :
    (handleEvent { type := "step_complete", step := 0 }
        { initState with currentStep := 5, totalSteps := 3 }).currentStep
      < ({ initState with currentStep := 5, totalSteps := 3 } : DualModelState).currentStep
    ∧ ({ initState with totalSteps := 3 } : DualModelState).totalSteps
      < (handleEvent { type := "step_complete", step := 9 }
          { initState with totalSteps := 3 }).currentStep := by
  constructor
  · decide
  · decide

/-- C4 (amended): `currentStep` is changed only by `step_complete`
events, and then set to the event's `step` field verbatim, with
`totalSteps` preserved; consequently `currentStep` is non-decreasing and
bounded by `totalSteps` only on streams whose `step_complete` indices
are themselves non-decreasing and bounded by `totalSteps` — the consumer
itself enforces no clamping. -/
theorem c4_step_tracking_amended :
    ∀ (e : StreamEvent) (s : DualModelState),
      (e.type ≠ "step_complete" → (handleEvent e s).currentStep = s.currentStep)
      ∧ (e.type = "step_complete" →
          (handleEvent e s).currentStep = e.step
          ∧ (handleEvent e s).totalSteps = s.totalSteps
          ∧ (s.currentStep ≤ e.step → s.currentStep ≤ (handleEvent e s).currentStep)
          ∧ (e.step ≤ s.totalSteps →
              (handleEvent e s).currentStep ≤ (handleEvent e s).totalSteps)) := by
  intro e s
  constructor
  · intro h
    unfold handleEvent
    cases hk : kindOf e.type <;>
      first | rfl | exact absurd hk (kindOf_ne_step_complete _ h)
  · intro h
    rw [handleEvent_step_complete e s h]
    exact ⟨rfl, rfl, fun hle => hle, fun hle => hle⟩

/-- C4 (witness): at a concrete in-range `step_complete` event the
amended tracking behaviour holds. -/
theorem c4_step_tracking_amended_witness :
    (handleEvent { type := "step_complete", step := 2 }
        { initState with currentStep := 1, totalSteps := 3 }).currentStep = 2
    ∧ 1 ≤ (handleEvent { type := "step_complete", step := 2 }
        { initState with currentStep := 1, totalSteps := 3 }).currentStep
    ∧ (handleEvent { type := "step_complete", step := 2 }
        { initState with currentStep := 1, totalSteps := 3 }).currentStep
      ≤ (handleEvent { type := "step_complete", step := 2 }
        { initState with currentStep := 1, totalSteps := 3 }).totalSteps := by
  have h := c4_step_tracking_amended { type := "step_complete", step := 2 }
    { initState with currentStep := 1, totalSteps := 3 }
  refine ⟨(h.2 rfl).1, (h.2 rfl).2.2.1 (by decide), ?_⟩
  have hb := (h.2 rfl).2.2.2 (by decide)
  exact hb

/-- C8: starting from the initial dual-model state, after processing any
sequence of stream events the flags `decisionActive` and `visionActive`
are never both true: `decision_start` activates the decision side while
clearing the vision side, `vision_start` does the converse, and every
other event kind either clears or preserves the active flags. -/
theorem c8_flags_mutually_exclusive :
    ∀ (events : List StreamEvent),
      ((processEvents events initState).decisionActive
        && (processEvents events initState).visionActive) = false := by
  have key : ∀ (events : List StreamEvent) (s : DualModelState),
      (s.decisionActive && s.visionActive) = false →
      ((processEvents events s).decisionActive
        && (processEvents events s).visionActive) = false := by
    intro events
    induction events with
    | nil => exact fun s h => h
    | cons e es ih => exact fun s h => ih (handleEvent e s) (handleEvent_excl e s h)
  exact fun events => key events initState (by decide)

/-- C9: for every event whose `type` is not one of the twelve handled
kinds, `handleEvent` returns the previous state unchanged (every field
identical), so unknown event kinds have no effect on the dual-model UI
state. -/
theorem c9_unknown_event_frame (e : StreamEvent) (s : DualModelState)
    (h : e.type ∉ handledTypes) : handleEvent e s = s :=
  handleEvent_unhandled e s h

/-- C9 (witness): a concrete unknown event kind leaves a concrete state
unchanged. -/
theorem c9_unknown_event_frame_witness :
    handleEvent { type := "totally_unknown" }
        { initState with decisionActive := true, currentStep := 7 }
      = { initState with decisionActive := true, currentStep := 7 } :=
  c9_unknown_event_frame _ _ (by decide)

theorem anomalyOf_spec (cfg : AnomalyConfig) (st : AnomalyState) (sig : String) :
    (anomalyOf cfg st sig = none ↔
      (st.consecutive_same_screen < cfg.sameScreenThreshold
        ∧ st.consecutive_failures < cfg.failureThreshold
        ∧ st.repeated_actions < cfg.repeatThreshold))
    ∧ (∀ c : AnomalyContext, anomalyOf cfg st sig = some c →
        (c.rule = .screenNotChanging ↔
          cfg.sameScreenThreshold ≤ st.consecutive_same_screen)
        ∧ (c.rule = .consecutiveFailures ↔
          (st.consecutive_same_screen < cfg.sameScreenThreshold
            ∧ cfg.failureThreshold ≤ st.consecutive_failures))
        ∧ (c.rule = .actionNoEffect ↔
          (st.consecutive_same_screen < cfg.sameScreenThreshold
            ∧ st.consecutive_failures < cfg.failureThreshold
            ∧ cfg.repeatThreshold ≤ st.repeated_actions))) := by
  unfold anomalyOf
  split_ifs with h1 h2 h3 <;>
    refine ⟨by simp <;> omega, fun c hc => ?_⟩ <;>
    first
    | exact Option.noConfusion hc
    | exact hc.elim
    | (injection hc with hc'
       subst hc'
       refine ⟨?_, ?_, ?_⟩ <;> simp <;> omega)

/-- C2: `observe(screenFingerprint, actionSignature, outcomeSuccess)` is
a pure function of the prior state and the observation; the anomaly it
returns is dispatched over the updated counters in the fixed rule order
— same-screen (default threshold 3), consecutive failures (default 2),
repeated same action with no intervening fingerprint change (default 3)
— first match wins: no anomaly is returned while every counter is below
its threshold, and on the observation whose updated counter first meets
a threshold the anomaly of the first such rule is returned. -/
theorem c2_observe_first_match :
    defaultAnomalyConfig = { sameScreenThreshold := 3, failureThreshold := 2,
                             repeatThreshold := 3 }
    ∧ ∀ (cfg : AnomalyConfig) (st : AnomalyState) (fp sig : String) (ok : Bool),
      (observe cfg st fp sig ok).1 = nextAnomalyState st fp sig ok
      ∧ ((observe cfg st fp sig ok).2 = none ↔
          ((observe cfg st fp sig ok).1.consecutive_same_screen < cfg.sameScreenThreshold
            ∧ (observe cfg st fp sig ok).1.consecutive_failures < cfg.failureThreshold
            ∧ (observe cfg st fp sig ok).1.repeated_actions < cfg.repeatThreshold))
      ∧ (∀ c : AnomalyContext, (observe cfg st fp sig ok).2 = some c →
          (c.rule = .screenNotChanging ↔
            cfg.sameScreenThreshold ≤ (observe cfg st fp sig ok).1.consecutive_same_screen)
          ∧ (c.rule = .consecutiveFailures ↔
            ((observe cfg st fp sig ok).1.consecutive_same_screen < cfg.sameScreenThreshold
              ∧ cfg.failureThreshold ≤ (observe cfg st fp sig ok).1.consecutive_failures))
          ∧ (c.rule = .actionNoEffect ↔
            ((observe cfg st fp sig ok).1.consecutive_same_screen < cfg.sameScreenThreshold
              ∧ (observe cfg st fp sig ok).1.consecutive_failures < cfg.failureThreshold
              ∧ cfg.repeatThreshold ≤ (observe cfg st fp sig ok).1.repeated_actions))) :=
  ⟨rfl, fun cfg st fp sig ok =>
    ⟨rfl, (anomalyOf_spec cfg (nextAnomalyState st fp sig ok) sig).1,
      (anomalyOf_spec cfg (nextAnomalyState st fp sig ok) sig).2⟩⟩

/-- C2 (witness): with the default thresholds, the first observation
from the initial state reports no anomaly, and from a state two
identical screens deep a third identical screen makes the same-screen
rule (the first in priority order) fire. -/
theorem c2_observe_first_match_witness :
    (observe defaultAnomalyConfig initAnomalyState "h" "tap" true).2 = none
    ∧ (⟨AnomalyRule.screenNotChanging, 3, "swipe"⟩ : AnomalyContext).rule
        = AnomalyRule.screenNotChanging :=
  ⟨((c2_observe_first_match.2 defaultAnomalyConfig initAnomalyState
      "h" "tap" true).2.1).mpr (by decide),
   (((c2_observe_first_match.2 defaultAnomalyConfig
      { consecutive_failures := 0, consecutive_same_screen := 2,
        last_screenshot_hash := "h", last_action := "tap",
        repeated_actions := 1 }
      "h" "swipe" true).2.2 ⟨AnomalyRule.screenNotChanging, 3, "swipe"⟩
      (by decide)).1).mpr (by decide)⟩

/-- C3: in every Batched run the number of re-plans performed never
exceeds 3 — the ReplanBudget starts at 3, is decremented once per
re-plan, and `replansUsed + replanBudget = 3` throughout (so the budget
is never negative) — and when a further anomaly is observed after the
budget is exhausted, the run terminates with the "recovery exhausted"
error status rather than stalling or re-planning again. -/
theorem c3_replan_budget :
    ∀ (n : Nat) (sigs : List BatchedSignal),
      (runBatched n sigs).replansUsed + (runBatched n sigs).replanBudget = maxReplans
      ∧ (runBatched n sigs).replansUsed ≤ 3
      ∧ (∀ len : Nat, (runBatched n sigs).status = .running →
          (runBatched n sigs).replanBudget = 0 →
          (batchedStep (runBatched n sigs) (.anomaly len)).status
            = .recoveryExhausted) := by
  have inv : ∀ (s : BatchedState) (sig : BatchedSignal),
      s.replansUsed + s.replanBudget = maxReplans →
      (batchedStep s sig).replansUsed + (batchedStep s sig).replanBudget
        = maxReplans := by
    intro s sig h
    unfold batchedStep
    by_cases hs : s.status = .running
    · cases sig with
      | ok => simpa [hs] using h
      | anomaly len =>
          by_cases hb : 0 < s.replanBudget
          · simp [hs, hb]; omega
          · simpa [hs, hb] using h
    · simpa [hs] using h
  have run_inv : ∀ (sigs : List BatchedSignal) (s : BatchedState),
      s.replansUsed + s.replanBudget = maxReplans →
      (sigs.foldl batchedStep s).replansUsed
        + (sigs.foldl batchedStep s).replanBudget = maxReplans := by
    intro sigs
    induction sigs with
    | nil => exact fun s h => h
    | cons a as ih => exact fun s h => ih _ (inv s a h)
  intro n sigs
  have h1 : (runBatched n sigs).replansUsed + (runBatched n sigs).replanBudget
      = maxReplans := run_inv sigs (initBatched n) rfl
  have hm : maxReplans = 3 := rfl
  refine ⟨h1, by omega, ?_⟩
  intro len hrun hbud
  simp [batchedStep, hrun, hbud]

/-- C3 (witness): a run of 2 planned steps hit by three anomalies uses
all 3 re-plans, and a fourth anomaly terminates it with the "recovery
exhausted" error. -/
theorem c3_replan_budget_witness :
    (runBatched 2 [.anomaly 2, .anomaly 2, .anomaly 2]).replansUsed ≤ 3
    ∧ (batchedStep (runBatched 2 [.anomaly 2, .anomaly 2, .anomaly 2])
        (.anomaly 1)).status = .recoveryExhausted := by
  have h := c3_replan_budget 2 [.anomaly 2, .anomaly 2, .anomaly 2]
  exact ⟨h.2.1, h.2.2 1 (by decide) (by decide)⟩

/-- C5: `abort()` is idempotent on one task run: the first
`handleAbortChat` call closes the stream, marks the run aborted and
issues exactly one backend abort, and a second call is a no-op (the
`chatStreamRef` guard), so calling it twice still produces exactly one
aborted outcome; when no stream is open the call does nothing at all. -/
theorem c5_abort_idempotent :
    ∀ (fallback : String) (s : ChatUIState),
      handleAbortChat fallback (handleAbortChat fallback s)
        = handleAbortChat fallback s
      ∧ (s.streamOpen = true →
          (handleAbortChat fallback (handleAbortChat fallback s)).backendAborts
            = s.backendAborts + 1)
      ∧ (s.streamOpen = false → handleAbortChat fallback s = s) := by
  intro fallback s
  have noop : ∀ t : ChatUIState, t.streamOpen = false →
      handleAbortChat fallback t = t := by
    intro t ht
    rw [handleAbortChat, if_neg (by simp [ht])]
  by_cases h : s.streamOpen = true
  · have hstep : handleAbortChat fallback s
        = { s with streamOpen := false,
                   messages := markLastStreamingAborted fallback s.messages,
                   loading := false,
                   aborting := false,
                   backendAborts := s.backendAborts + 1 } := by
      rw [handleAbortChat, if_pos h]
    refine ⟨?_, fun _ => ?_, fun hf => absurd h (by simp [hf])⟩
    · rw [hstep]
      exact noop _ rfl
    · rw [hstep, noop _ rfl]
  · have hf : s.streamOpen = false := by
      cases hso : s.streamOpen
      · rfl
      · exact absurd hso h
    exact ⟨by rw [noop s hf, noop s hf], fun ht => absurd ht h,
           fun _ => noop s hf⟩

/-- C5 (witness): from a concrete state with an open stream, the double
abort equals the single abort and issues exactly one backend abort. -/
theorem c5_abort_idempotent_witness :
    handleAbortChat "aborted"
        (handleAbortChat "aborted"
          { input := "", loading := true, aborting := false,
            streamOpen := true, error := none,
            messages := [{ role := "assistant", content := "",
                           isStreaming := true, success := true }],
            sends := 1, backendAborts := 0, historySaves := 0 })
      = handleAbortChat "aborted"
          { input := "", loading := true, aborting := false,
            streamOpen := true, error := none,
            messages := [{ role := "assistant", content := "",
                           isStreaming := true, success := true }],
            sends := 1, backendAborts := 0, historySaves := 0 }
    ∧ (handleAbortChat "aborted"
        (handleAbortChat "aborted"
          { input := "", loading := true, aborting := false,
            streamOpen := true, error := none,
            messages := [{ role := "assistant", content := "",
                           isStreaming := true, success := true }],
            sends := 1, backendAborts := 0, historySaves := 0 })).backendAborts
      = 1 :=
  ⟨(c5_abort_idempotent "aborted" _).1,
   (c5_abort_idempotent "aborted"
      { input := "", loading := true, aborting := false,
        streamOpen := true, error := none,
        messages := [{ role := "assistant", content := "",
                       isStreaming := true, success := true }],
        sends := 1, backendAborts := 0, historySaves := 0 }).2.1 rfl⟩

/-- C6: at most one task run is active per device panel: while a run is
in flight (`loading`), `handleSend` rejects a new send outright (the
state is unchanged and no `sendMessageStream` call is issued); an
accepted send sets `loading`, so sending twice in a row issues at most
one stream call, and the second send after an accepted first is a
no-op. -/
theorem c6_single_run_guard :
    ∀ s : ChatUIState,
      (s.loading = true → handleSend s = s)
      ∧ (handleSend (handleSend s)).sends ≤ s.sends + 1
      ∧ ((handleSend s).loading = true →
          handleSend (handleSend s) = handleSend s) := by
  have rej : ∀ t : ChatUIState, t.loading = true → handleSend t = t := by
    intro t ht
    rw [handleSend, if_pos (Or.inr ht)]
  intro s
  refine ⟨rej s, ?_, fun h => rej _ h⟩
  by_cases hg : s.input.trim = "" ∨ s.loading = true
  · have h0 : handleSend s = s := by rw [handleSend, if_pos hg]
    rw [h0, h0]
    exact Nat.le_succ _
  · have h1 : (handleSend s).loading = true := by
      rw [handleSend, if_neg hg]
    have h2 : (handleSend s).sends = s.sends + 1 := by
      rw [handleSend, if_neg hg]
    rw [rej _ h1, h2]

/-- C6 (witness): a concrete loading state rejects a send, and a
concrete idle state accepts one send and rejects the immediate second. -/
theorem c6_single_run_guard_witness :
    handleSend
        { input := "open app", loading := true, aborting := false,
          streamOpen := true, error := none, messages := [],
          sends := 1, backendAborts := 0, historySaves := 0 }
      = { input := "open app", loading := true, aborting := false,
          streamOpen := true, error := none, messages := [],
          sends := 1, backendAborts := 0, historySaves := 0 }
    ∧ (handleSend (handleSend
        { input := "open app", loading := false, aborting := false,
          streamOpen := false, error := none, messages := [],
          sends := 0, backendAborts := 0, historySaves := 0 })).sends ≤ 1 :=
  ⟨(c6_single_run_guard _).1 rfl,
   (c6_single_run_guard
      { input := "open app", loading := false, aborting := false,
        streamOpen := false, error := none, messages := [],
        sends := 0, backendAborts := 0, historySaves := 0 }).2.1⟩

/-- C7: every terminating run maps to exactly one terminal event —
`task_complete`, `error` or `aborted` (producer side modelled from the
spec) — and the consumers leave the streaming state on each of them:
`handleEvent` clears both active flags and resets both stages to idle on
every terminal event, and each of the `DevicePanel` terminal callbacks
(`done`/`error`/`aborted`) clears `loading` and drops the stream
handle. -/
theorem c7_terminal_events :
    (∀ o : RunOutcome,
      (terminalEventOf o).type ∈ (["task_complete", "error", "aborted"] : List String))
    ∧ (∀ (o : RunOutcome) (s : DualModelState),
        (handleEvent (terminalEventOf o) s).decisionActive = false
        ∧ (handleEvent (terminalEventOf o) s).visionActive = false
        ∧ (handleEvent (terminalEventOf o) s).decisionStage = "idle"
        ∧ (handleEvent (terminalEventOf o) s).visionStage = "idle")
    ∧ (∀ (m : String) (b : Bool) (k : Nat) (s : ChatUIState),
        (onDone m b k s).loading = false ∧ (onDone m b k s).streamOpen = false
        ∧ (onError m s).loading = false ∧ (onError m s).streamOpen = false
        ∧ (onAborted m s).loading = false ∧ (onAborted m s).streamOpen = false) := by
  refine ⟨?_, ?_, ?_⟩
  · intro o
    cases o <;> simp [terminalEventOf]
  · intro o s
    cases o with
    | success =>
        have hk : kindOf (terminalEventOf .success).type = .task_complete := by
          show kindOf "task_complete" = .task_complete
          decide
        unfold handleEvent
        rw [hk]
        exact ⟨rfl, rfl, rfl, rfl⟩
    | failure m =>
        have hk : kindOf (terminalEventOf (.failure m)).type = .error := by
          show kindOf "error" = .error
          decide
        unfold handleEvent
        rw [hk]
        exact ⟨rfl, rfl, rfl, rfl⟩
    | cancelled m =>
        have hk : kindOf (terminalEventOf (.cancelled m)).type = .aborted := by
          show kindOf "aborted" = .aborted
          decide
        unfold handleEvent
        rw [hk]
        exact ⟨rfl, rfl, rfl, rfl⟩
  · intro m b k s
    exact ⟨rfl, rfl, rfl, rfl, rfl, rfl⟩

/-- C10: after the normal path of `saveHistoryItem`, the stored history
list begins with the newly saved item and has length at most 100; on
the `QuotaExceededError` fallback path, at most 21 items are written —
the 20 most recent previously stored items plus the new item, which is
placed first. -/
theorem c10_save_history_bounds :
    ∀ (stored : List HistoryItem) (item : HistoryItem),
      (saveHistoryItemNormal stored item).head? = some item
      ∧ (saveHistoryItemNormal stored item).length ≤ 100
      ∧ (saveHistoryItemFallback stored item).head? = some item
      ∧ (saveHistoryItemFallback stored item).length ≤ 21
      ∧ saveHistoryItemFallback stored item = item :: stored.take 20 := by
  intro stored item
  refine ⟨rfl, ?_, rfl, ?_, rfl⟩
  · rw [saveHistoryItemNormal, List.length_take]
    exact min_le_left _ _
  · rw [saveHistoryItemFallback]
    simp only [List.length_cons, List.length_take, FALLBACK_HISTORY_ITEMS]
    omega

end AutoGLM
